import Mathlib

/-!
Verification development for the Streamlit MCP-agent chat shell
(`src/streamlit.py`).

The script is a thin UI shell: it loads a model list from a JSON
configuration file, lazily constructs a transport client and an agent,
keeps an in-memory transcript of `{role, content}` entries, forwards one
user message per turn to the agent, and registers an `atexit` cleanup
hook.  We shallowly embed the session state and each handler as pure
Lean functions; external effects (file reads, the agent's `run` call,
constructor exceptions) are passed in as explicit outcome values, since
the shell itself only branches on whether they succeeded or raised.
-/

namespace McpChat

/-- The role tag of a transcript entry (`"user"` / `"assistant"` in
`st.session_state.messages`). -/
inductive Role where
  | user
  | assistant
deriving DecidableEq, Repr

/-- One transcript entry: the dict `{"role": ..., "content": ...}`
appended to `st.session_state.messages`. -/
structure Entry where
  role : Role
  content : String
deriving DecidableEq, Repr

/-- The LLM handle produced by a provider constructor.  The shell only
ever builds `ChatGroq(model=...)`, so the handle records the provider
name and the model string it was given. -/
structure LLM where
  provider : String
  modelName : String
deriving DecidableEq, Repr

/-- `ChatGroq(model=m)`: the only provider binding the shell constructs. -/
def ChatGroq (m : String) : LLM :=
  { provider := "ChatGroq", modelName := m }

/-- The transport client (`MCPClient`).  The shell only ever inspects its
`sessions` mapping for truthiness, so we record the open sessions. -/
structure Client where
  sessions : List String
deriving DecidableEq, Repr

/-- The agent handle (`MCPAgent`).  The shell constructs it with an LLM,
a client, `max_steps=15`, `memory_enabled=True`; the only operation it
applies besides `run` is `clear_conversation_history`, so we carry the
conversation memory explicitly. -/
structure Agent where
  llm : LLM
  client : Client
  maxSteps : Nat
  memoryEnabled : Bool
  memory : List Entry
deriving DecidableEq, Repr

/-- `agent.clear_conversation_history()`: discards the agent's internal
conversation memory. -/
def clearConversationHistory (a : Agent) : Agent :=
  { a with memory := [] }

/-- The session state the shell reads and writes:
`st.session_state.messages`, `st.session_state.agent`,
`st.session_state.client`. -/
structure SessState where
  messages : List Entry
  agent : Option Agent
  client : Option Client
deriving DecidableEq, Repr

/-- The state after the top-of-script session-state initialisation:
empty transcript, no agent, no client. -/
def initialState : SessState :=
  { messages := [], agent := none, client := none }

/-! ### Configuration loader (`load_models`) -/

/-- Outcome of reading and parsing `browser_mcp.json` in `load_models`:
either opening/parsing raised (missing file or malformed JSON, both
absorbed by the bare `except:`), or it parsed to an object whose
`"models"` key is present with a value (a list of names) or absent. -/
inductive ConfigFile where
  | unreadable
  | parsed (models : Option (List String))
deriving DecidableEq, Repr

/-- The hard-coded list returned by the `except:` branch of
`load_models`. -/
def exceptFallbackModels : List String :=
  ["qwen-qwq-32b", "llama3-8b-8192", "llama3-70b-8192"]

/-- `load_models()`: reads `browser_mcp.json` and returns
`config.get("models", ["qwen-qwq-32b"])`; any exception while opening or
parsing is swallowed by the bare `except:`, which returns the hard-coded
three-element list.  Note the two failure paths use different defaults:
`.get`'s default is `["qwen-qwq-32b"]`, the `except:` branch returns
`exceptFallbackModels`. -/
def load_models : ConfigFile → List String
  | .unreadable => exceptFallbackModels
  | .parsed (some ms) => ms
  | .parsed none => ["qwen-qwq-32b"]

/-! ### Agent initializer (`initialize_agent`) -/

/-- Python substring containment on the character lists:
`listContains p s` is `True` exactly when `p` occurs contiguously in
`s` (the semantics of `p in s` for strings). -/
def listContains (pat : List Char) : List Char → Bool
  | [] => pat.isEmpty
  | c :: rest => pat.isPrefixOf (c :: rest) || listContains pat rest

/-- `needle in hay` for Python strings. -/
def pyIn (needle hay : String) : Bool :=
  listContains needle.toList hay.toList

/-- The LLM-selection conditional inside `initialize_agent`:
`ChatGroq(model=model)` when `"groq" in model`, otherwise the fixed
default `ChatGroq(model="qwen-qwq-32b")`. -/
def chooseLLM (model : String) : LLM :=
  if pyIn "groq" model then ChatGroq model else ChatGroq "qwen-qwq-32b"

/-- The external outcomes `initialize_agent` depends on: whether
`MCPClient.from_config_file` returns a client or raises, and whether the
`ChatGroq` / `MCPAgent` constructors raise.  The shell's `try/except`
only distinguishes "some step raised" from "all succeeded". -/
structure InitEnv where
  clientResult : Except String Client
  llmRaises : Option String
  agentRaises : Option String
deriving Repr

/-- `True` when some step of `initialize_agent` raises in this
environment. -/
def initEnvFails (env : InitEnv) : Bool :=
  (match env.clientResult with | .error _ => true | .ok _ => false)
    || env.llmRaises.isSome || env.agentRaises.isSome

/-- `initialize_agent()`: builds the client, picks the LLM from the
selected model, builds the agent with `max_steps=15`,
`memory_enabled=True`, and returns `(client, agent)`; any exception is
caught by the `except Exception` and turned into
`((None, None), st.error message)`.  The second component is the error
message displayed, if any. -/
def initialize_agent (env : InitEnv) (model : String) :
    (Option Client × Option Agent) × Option String :=
  match env.clientResult with
  | .error e => ((none, none), some ("Error initializing agent: " ++ e))
  | .ok client =>
    match env.llmRaises with
    | some e => ((none, none), some ("Error initializing agent: " ++ e))
    | none =>
      match env.agentRaises with
      | some e => ((none, none), some ("Error initializing agent: " ++ e))
      | none =>
        ((some client,
          some { llm := chooseLLM model, client := client, maxSteps := 15,
                 memoryEnabled := true, memory := [] }),
         none)

/-- The top-level "Initialize the agent when needed" block: when the
agent handle or the client handle is `None`, calls `initialize_agent`
and assigns `st.session_state.client, st.session_state.agent` from its
result.  The boolean records whether construction was attempted on this
render cycle. -/
def initBlockStep (s : SessState) (env : InitEnv) (model : String) :
    SessState × Bool :=
  if s.agent.isNone || s.client.isNone then
    let r := initialize_agent env model
    ({ s with client := r.1.1, agent := r.1.2 }, true)
  else
    (s, false)

/-! ### Turn handler (the `if user_input:` block) -/

/-- The outcome of `asyncio.run(st.session_state.agent.run(user_input))`:
the returned text, or the message of the exception it raised. -/
inductive RunOutcome where
  | success (response : String)
  | failure (err : String)
deriving DecidableEq, Repr

/-- The `if user_input:` handler: appends the user entry, then — if an
agent handle is present — runs the agent and appends the response as an
assistant entry, showing `"Error: ..."` if the call raised; with no
agent handle it shows `"Agent is not initialized..."` instead.  The
second component is the error message displayed, if any.  In every
branch the `except Exception` (or the plain `st.error` call) returns
normally, so no exception propagates out of the handler.
(The `st.experimental_rerun()` call only asks the framework to re-render
and never touches the session state, so it is not modelled.) -/
def handleUserInput (s : SessState) (input : String) (outcome : RunOutcome) :
    SessState × Option String :=
  let s1 := { s with messages := s.messages ++ [Entry.mk Role.user input] }
  match s1.agent with
  | some _ =>
    match outcome with
    | .success resp =>
      ({ s1 with
         messages := s1.messages ++ [Entry.mk Role.assistant resp] }, none)
    | .failure e => (s1, some ("Error: " ++ e))
  | none => (s1, some "Agent is not initialized. Please try restarting the app.")

/-! ### "New Conversation" button handler -/

/-- The `st.button("New Conversation")` handler: resets the transcript
to `[]` and, when an agent handle is present, calls
`clear_conversation_history()` on it.  The second component counts how
many times the memory-clear operation was invoked. -/
def newConversation (s : SessState) : SessState × Nat :=
  let s1 := { s with messages := [] }
  match s1.agent with
  | some a => ({ s1 with agent := some (clearConversationHistory a) }, 1)
  | none => (s1, 0)

/-! ### Shutdown hook (`cleanup`) -/

/-- The `st.session_state` contents the `cleanup` hook inspects at
process exit: `none` when the `"client"` key is absent, otherwise the
value stored under it (`None` or a client). -/
abbrev ExitClientSlot := Option (Option Client)

/-- `cleanup()`: registered with `atexit`; calls
`close_all_sessions()` when `"client" in st.session_state` and the
stored client is truthy (non-`None`) and its `sessions` mapping is
truthy (non-empty).  Returns the number of times `close_all_sessions`
is invoked. -/
def cleanup : ExitClientSlot → Nat
  | some (some c) => if c.sessions.isEmpty then 0 else 1
  | _ => 0

/-! ### Shell operations and reachable states -/

/-- One operation of the shell on the session state, with its external
outcomes made explicit: the lazy agent-initialisation block, a user
submission (fired only for truthy, i.e. non-empty, input), or the
"New Conversation" reset. -/
inductive ShellOp where
  | initBlock (env : InitEnv) (model : String)
  | userTurn (input : String) (outcome : RunOutcome)
  | reset

/-- Applying one shell operation to the session state. -/
def applyOp (s : SessState) : ShellOp → SessState
  | .initBlock env model => (initBlockStep s env model).1
  | .userTurn input outcome =>
    if input = "" then s else (handleUserInput s input outcome).1
  | .reset => (newConversation s).1

/-- The agent handle and the client handle are both present or both
absent. -/
def handlesAligned (s : SessState) : Bool :=
  s.agent.isSome == s.client.isSome

/-! ### Transcript shape -/

/-- `chatShape l` holds when `l` is a sequence of user/assistant pairs:
even length, roles alternating `user, assistant, user, assistant, ...`
starting with `user`. -/
def chatShape : List Entry → Bool
  | [] => true
  | ⟨Role.user, _⟩ :: ⟨Role.assistant, _⟩ :: rest => chatShape rest
  | _ => false

/-- Running a sequence of successful turns: each element gives the user
input and the agent's returned response. -/
def runSuccessfulTurns (s : SessState) : List (String × String) → SessState
  | [] => s
  | (i, r) :: rest =>
    runSuccessfulTurns (handleUserInput s i (.success r)).1 rest

/-- The transcript entries produced by a list of successful turns: one
user entry followed by one assistant entry per turn. -/
def turnEntries : List (String × String) → List Entry
  | [] => []
  | (i, r) :: rest =>
    Entry.mk Role.user i :: Entry.mk Role.assistant r :: turnEntries rest

/-! ### Concrete fixtures used by witness theorems -/

/-- A concrete transport client with no open sessions. -/
def testClient : Client := { sessions := [] }

/-- A concrete agent handle. -/
def testAgent : Agent :=
  { llm := ChatGroq "qwen-qwq-32b", client := testClient, maxSteps := 15,
    memoryEnabled := true, memory := [] }

/-- A concrete environment in which client construction raises. -/
def failEnv : InitEnv :=
  { clientResult := .error "boom", llmRaises := none, agentRaises := none }

/-- A concrete environment in which every construction step succeeds. -/
def okEnv : InitEnv :=
  { clientResult := .ok testClient, llmRaises := none, agentRaises := none }

/-! ### Helper lemmas -/

theorem turnEntries_length (ts : List (String × String)) :
    (turnEntries ts).length = 2 * ts.length := by
  induction ts with
  | nil => rfl
  | cons p rest ih =>
    cases p
    simp [turnEntries, ih]
    omega

theorem chatShape_turnEntries (ts : List (String × String)) :
    chatShape (turnEntries ts) = true := by
  induction ts with
  | nil => rfl
  | cons p rest ih =>
    cases p
    simpa [turnEntries, chatShape] using ih

theorem handleUserInput_fields (s : SessState) (i : String) (o : RunOutcome) :
    (handleUserInput s i o).1.agent = s.agent
      ∧ (handleUserInput s i o).1.client = s.client := by
  cases h : s.agent <;> cases o <;> simp [handleUserInput, h]

theorem handleUserInput_success_messages (s : SessState) (a : Agent)
    (i r : String) (h : s.agent = some a) :
    (handleUserInput s i (.success r)).1.messages
      = s.messages ++ [Entry.mk Role.user i, Entry.mk Role.assistant r] := by
  simp [handleUserInput, h]

theorem runSuccessfulTurns_spec (ts : List (String × String)) (s : SessState)
    (h : s.agent.isSome = true) :
    (runSuccessfulTurns s ts).messages = s.messages ++ turnEntries ts
      ∧ (runSuccessfulTurns s ts).agent = s.agent := by
  induction ts generalizing s with
  | nil => simp [runSuccessfulTurns, turnEntries]
  | cons p rest ih =>
    obtain ⟨i, r⟩ := p
    obtain ⟨a, ha⟩ := Option.isSome_iff_exists.mp h
    have hm := handleUserInput_success_messages s a i r ha
    have hag := (handleUserInput_fields s i (.success r)).1
    have h2 : (handleUserInput s i (.success r)).1.agent.isSome = true := by
      rw [hag]; exact h
    have hrec := ih (handleUserInput s i (.success r)).1 h2
    refine ⟨?_, ?_⟩
    · show (runSuccessfulTurns (handleUserInput s i (.success r)).1 rest).messages
        = s.messages ++ turnEntries ((i, r) :: rest)
      rw [hrec.1, hm, turnEntries]
      simp
    · show (runSuccessfulTurns (handleUserInput s i (.success r)).1 rest).agent
        = s.agent
      rw [hrec.2, hag]

theorem initialize_agent_fail (env : InitEnv) (model : String)
    (h : initEnvFails env = true) :
    (initialize_agent env model).1 = (none, none)
      ∧ (initialize_agent env model).2.isSome = true := by
  obtain ⟨cr, lr, ar⟩ := env
  cases cr <;> cases lr <;> cases ar <;>
    simp_all [initialize_agent, initEnvFails]

theorem initialize_agent_aligned (env : InitEnv) (model : String) :
    ((initialize_agent env model).1.1).isSome
      = ((initialize_agent env model).1.2).isSome := by
  obtain ⟨cr, lr, ar⟩ := env
  cases cr <;> cases lr <;> cases ar <;> simp [initialize_agent]

theorem initBlockStep_messages (s : SessState) (env : InitEnv) (model : String) :
    ((initBlockStep s env model).1).messages = s.messages := by
  by_cases hc : (s.agent.isNone || s.client.isNone) = true <;>
    simp [initBlockStep, hc]

theorem applyOp_aligned (s : SessState) (op : ShellOp)
    (h : handlesAligned s = true) : handlesAligned (applyOp s op) = true := by
  cases op with
  | initBlock env model =>
    by_cases hc : (s.agent.isNone || s.client.isNone) = true
    · simp [applyOp, initBlockStep, hc, handlesAligned, beq_iff_eq,
        initialize_agent_aligned]
    · simpa [applyOp, initBlockStep, hc] using h
  | userTurn input outcome =>
    by_cases hin : input = ""
    · simpa [applyOp, hin] using h
    · have hf := handleUserInput_fields s input outcome
      simpa [applyOp, hin, handlesAligned, hf.1, hf.2] using h
  | reset =>
    cases ha : s.agent <;>
      simpa [applyOp, newConversation, ha, handlesAligned] using h

theorem foldl_applyOp_aligned (ops : List ShellOp) (s : SessState)
    (h : handlesAligned s = true) :
    handlesAligned (ops.foldl applyOp s) = true := by
  induction ops generalizing s with
  | nil => simpa
  | cons op rest ih => exact ih _ (applyOp_aligned s op h)

/-! ### Claims -/

/-- C1: starting from an empty transcript with an agent handle present,
each successful turn appends exactly one user entry followed by exactly
one assistant entry, so after `N` successful turns the transcript has
exactly `2N` entries alternating user/assistant starting with a user
entry. -/
theorem claim_C1_transcript_shape (ag : Agent) (cl : Option Client)
    (turns : List (String × String)) (ms : List Entry) (i r : String) :
    (handleUserInput ⟨ms, some ag, cl⟩ i (.success r)).1.messages
        = ms ++ [Entry.mk Role.user i, Entry.mk Role.assistant r]
      ∧ (runSuccessfulTurns ⟨[], some ag, cl⟩ turns).messages.length
          = 2 * turns.length
      ∧ chatShape (runSuccessfulTurns ⟨[], some ag, cl⟩ turns).messages
          = true := by
  have hspec := runSuccessfulTurns_spec turns ⟨[], some ag, cl⟩ rfl
  refine ⟨handleUserInput_success_messages _ ag i r rfl, ?_, ?_⟩
  · rw [hspec.1]
    simp [turnEntries_length]
  · rw [hspec.1]
    simpa using chatShape_turnEntries turns

/-- C2 (as stated, refuted): the claim says every failure — missing
file, malformed JSON, or missing `models` key — returns the one
hard-coded fallback list.  In the code the missing-key case goes through
`config.get("models", ["qwen-qwq-32b"])` and returns the one-element
default, while the `except:` branch returns the three-element fallback:
the two failure modes return different lists. -/
theorem claim_C2_counterexample :
    load_models (.parsed none) = ["qwen-qwq-32b"]
      ∧ load_models .unreadable = exceptFallbackModels
      ∧ load_models (.parsed none) ≠ load_models .unreadable := by
  refine ⟨rfl, rfl, ?_⟩
  decide

/-- C2 (amended): when loading succeeds with a `models` key the loader
returns that list; a missing file or malformed JSON returns the
hard-coded three-element fallback; a well-formed config missing the
`models` key returns the `.get` default `["qwen-qwq-32b"]`.  The loader
is a total function of the read outcome: the bare `except:` absorbs
every exception, so none reaches the caller. -/
theorem claim_C2_amended (ms : List String) :
    load_models (.parsed (some ms)) = ms
      ∧ load_models .unreadable = exceptFallbackModels
      ∧ load_models (.parsed none) = ["qwen-qwq-32b"] :=
  ⟨rfl, rfl, rfl⟩

/-- C3: when the agent call raises after the user message has been
appended, the exception is caught and an error message is displayed, the
user entry is kept (no rollback), no assistant entry is appended, and a
transcript of even length before the submission has odd length after. -/
theorem claim_C3_failed_turn (s : SessState) (input err : String)
    (h : s.agent.isSome = true) :
    (handleUserInput s input (.failure err)).1.messages
        = s.messages ++ [Entry.mk Role.user input]
      ∧ (handleUserInput s input (.failure err)).2
          = some ("Error: " ++ err)
      ∧ (s.messages.length % 2 = 0 →
          (handleUserInput s input (.failure err)).1.messages.length % 2 = 1) := by
  obtain ⟨a, ha⟩ := Option.isSome_iff_exists.mp h
  refine ⟨?_, ?_, ?_⟩
  · simp [handleUserInput, ha]
  · simp [handleUserInput, ha]
  · intro hev
    simp [handleUserInput, ha]
    omega

/-- Witness for C3 at a concrete state with an agent present. -/
theorem claim_C3_witness :
    (⟨[], some testAgent, none⟩ : SessState).agent.isSome = true
      ∧ ((handleUserInput ⟨[], some testAgent, none⟩ "hi" (.failure "boom")).1.messages
            = ([] : List Entry) ++ [Entry.mk Role.user "hi"]
        ∧ (handleUserInput ⟨[], some testAgent, none⟩ "hi" (.failure "boom")).2
            = some ("Error: " ++ "boom")
        ∧ (([] : List Entry).length % 2 = 0 →
            (handleUserInput ⟨[], some testAgent, none⟩ "hi"
              (.failure "boom")).1.messages.length % 2 = 1)) :=
  ⟨rfl, claim_C3_failed_turn ⟨[], some testAgent, none⟩ "hi" "boom" rfl⟩

/-- C4: when every construction step succeeds, the agent's LLM handle is
chosen by the single substring test: `ChatGroq(model=model)` when
`"groq" in model`, otherwise the fixed default
`ChatGroq(model="qwen-qwq-32b")`. -/
theorem claim_C4_llm_choice (env : InitEnv) (model : String) (c : Client)
    (hc : env.clientResult = .ok c) (hl : env.llmRaises = none)
    (ha : env.agentRaises = none) :
    (initialize_agent env model).1.2
      = some { llm := if pyIn "groq" model then ChatGroq model
                      else ChatGroq "qwen-qwq-32b",
               client := c, maxSteps := 15, memoryEnabled := true,
               memory := [] } := by
  simp [initialize_agent, hc, hl, ha, chooseLLM]

/-- Witness for C4: a fully successful environment with a model name
that contains the marker substring. -/
theorem claim_C4_witness :
    okEnv.clientResult = .ok testClient
      ∧ okEnv.llmRaises = none
      ∧ okEnv.agentRaises = none
      ∧ pyIn "groq" "meta-llama-groq-70b" = true
      ∧ (initialize_agent okEnv "meta-llama-groq-70b").1.2
          = some { llm := if pyIn "groq" "meta-llama-groq-70b"
                          then ChatGroq "meta-llama-groq-70b"
                          else ChatGroq "qwen-qwq-32b",
                   client := testClient, maxSteps := 15,
                   memoryEnabled := true, memory := [] } :=
  ⟨rfl, rfl, rfl, by decide,
    claim_C4_llm_choice okEnv "meta-llama-groq-70b" testClient rfl rfl rfl⟩

/-- C5: if any step of agent initialization raises, the initializer
returns `(None, None)`, an error message is displayed, and the
transcript is not mutated by the initialization block. -/
theorem claim_C5_init_failure (env : InitEnv) (model : String)
    (s : SessState) (h : initEnvFails env = true) :
    (initialize_agent env model).1 = (none, none)
      ∧ (initialize_agent env model).2.isSome = true
      ∧ ((initBlockStep s env model).1).messages = s.messages :=
  ⟨(initialize_agent_fail env model h).1,
   (initialize_agent_fail env model h).2,
   initBlockStep_messages s env model⟩

/-- Witness for C5 at a concrete failing environment. -/
theorem claim_C5_witness :
    initEnvFails failEnv = true
      ∧ ((initialize_agent failEnv "m").1 = (none, none)
        ∧ (initialize_agent failEnv "m").2.isSome = true
        ∧ ((initBlockStep initialState failEnv "m").1).messages
            = initialState.messages) :=
  ⟨rfl, claim_C5_init_failure failEnv "m" initialState rfl⟩

/-- C6: the "New Conversation" handler resets the transcript to the
empty list, and invokes the agent's memory-clear operation exactly once
when an agent handle is present and zero times when it is absent. -/
theorem claim_C6_new_conversation (s : SessState) :
    (newConversation s).1.messages = []
      ∧ (newConversation s).2 = (if s.agent.isSome then 1 else 0) := by
  cases h : s.agent <;> simp [newConversation, h]

/-- C7: the shutdown hook invokes `close_all_sessions` exactly once iff
the `"client"` key is present with a non-`None` client whose `sessions`
mapping is non-empty; in every other state it is invoked zero times. -/
theorem claim_C7_cleanup (slot : ExitClientSlot) :
    (cleanup slot = 1
        ↔ ∃ c : Client, slot = some (some c) ∧ c.sessions ≠ [])
      ∧ (cleanup slot = 1 ∨ cleanup slot = 0) := by
  rcases slot with _ | (_ | c)
  · simp [cleanup]
  · simp [cleanup]
  · cases hs : c.sessions with
    | nil => simp [cleanup, hs, List.isEmpty]
    | cons x xs =>
      refine ⟨?_, ?_⟩
      · simp [cleanup, hs, List.isEmpty]
      · left
        simp [cleanup, hs, List.isEmpty]

/-- C8: from the initial state, after any sequence of shell operations
(lazy initialization, user turns, resets) the agent handle and the
client handle are either both present or both absent. -/
theorem claim_C8_handles_aligned (ops : List ShellOp) :
    handlesAligned (ops.foldl applyOp initialState) = true :=
  foldl_applyOp_aligned ops initialState rfl

/-- C9: whenever a handle is missing at the initialization point,
construction is attempted on that render cycle, and after an attempt
that fails the handles are empty again, so the next render cycle
attempts construction again — a failure is never cached. -/
theorem claim_C9_retry (s : SessState) (env env2 : InitEnv)
    (model model2 : String) (hfail : initEnvFails env = true)
    (hmiss : (s.agent.isNone || s.client.isNone) = true) :
    (initBlockStep s env model).2 = true
      ∧ (initBlockStep (initBlockStep s env model).1 env2 model2).2 = true := by
  have hh := initialize_agent_fail env model hfail
  refine ⟨by simp [initBlockStep, hmiss], ?_⟩
  have hstate : (initBlockStep s env model).1
      = { s with client := (initialize_agent env model).1.1,
                 agent := (initialize_agent env model).1.2 } := by
    simp [initBlockStep, hmiss]
  rw [hstate]
  have h1 : (initialize_agent env model).1.1 = none := by
    rw [hh.1]
  have h2 : (initialize_agent env model).1.2 = none := by
    rw [hh.1]
  simp [initBlockStep, h1, h2]

/-- Witness for C9: a failed construction from the initial state is
retried on the next cycle. -/
theorem claim_C9_witness :
    initEnvFails failEnv = true
      ∧ (initialState.agent.isNone || initialState.client.isNone) = true
      ∧ ((initBlockStep initialState failEnv "m").2 = true
        ∧ (initBlockStep (initBlockStep initialState failEnv "m").1
            failEnv "m").2 = true) :=
  ⟨rfl, rfl, claim_C9_retry initialState failEnv failEnv "m" "m" rfl rfl⟩

/-- C10: submitting a message while the agent handle is absent still
appends the user entry, displays the "Agent is not initialized" error,
and appends no assistant entry; the handler returns normally, so no
exception propagates. -/
theorem claim_C10_missing_agent (s : SessState) (input : String)
    (outcome : RunOutcome) (h : s.agent = none) :
    (handleUserInput s input outcome).1.messages
        = s.messages ++ [Entry.mk Role.user input]
      ∧ (handleUserInput s input outcome).2
          = some "Agent is not initialized. Please try restarting the app." := by
  cases outcome <;> simp [handleUserInput, h]

/-- Witness for C10 at the initial state, where no agent handle is
present. -/
theorem claim_C10_witness :
    initialState.agent = none
      ∧ ((handleUserInput initialState "hi" (.success "r")).1.messages
            = initialState.messages ++ [Entry.mk Role.user "hi"]
        ∧ (handleUserInput initialState "hi" (.success "r")).2
            = some "Agent is not initialized. Please try restarting the app.") :=
  ⟨rfl, claim_C10_missing_agent initialState "hi" (.success "r") rfl⟩

end McpChat
